import Mathlib

/-!
# GraphMail — verification of the evidence-gated knowledge-graph core

A shallow embedding of the evidence-verification, graph-construction and
retry/rate-limiting core of the GraphMail repository, together with theorems
settling the specification claims about it.

Embedded source files:
* `src/sanitization/body_truncator.py` — `truncate_body`
* `src/sanitization/rate_limiter.py` — `is_retryable_error`,
  `calculate_backoff_delay`, `rate_limited_llm_call`
* `src/agents/agent3_verifier.py` — `GraphBuilder` (`verify_fact`,
  `verify_and_add_project`, `_add_topic`, `_add_challenge`, `_add_resolution`)
* `src/evaluation/trust_score.py` — `calculate_trust_score` and its components

Modelling conventions:
* Python strings are Lean `String` (sequences of Unicode code points, exactly
  as Python's `str`); Python float arithmetic is modelled over `ℚ`.
* The LLM oracle call (network + JSON parsing) is modelled as a function
  `String → Except String Bool` from the prompt to either a raised exception
  (`.error`) or the parsed `supported` verdict (`.ok`).
* `random.uniform(-j, j)` is modelled by passing the sampled jitter value as
  an explicit argument.
* Wall-clock time in the retry loop advances only at `time.sleep(delay)`
  (oracle-call latency is taken as zero).
-/

namespace GraphMail

/-! ## String helpers (Python `in`, `str.lower`) -/

/-- Is the first list a leading segment of the second (helper for substring
tests, Python's `needle in haystack`). -/
def listLeads : List Char → List Char → Bool
  | [], _ => true
  | _ :: _, [] => false
  | a :: as, b :: bs => a == b && listLeads as bs

/-- Does the first list occur contiguously inside the second. -/
def listOccurs (n : List Char) : List Char → Bool
  | [] => listLeads n []
  | b :: bs => listLeads n (b :: bs) || listOccurs n bs

/-- Python's `needle in haystack` on strings. -/
def strContains (haystack needle : String) : Bool :=
  listOccurs needle.data haystack.data

/-- Python's `str.lower()`, character by character. -/
def strLower (s : String) : String :=
  ⟨s.data.map Char.toLower⟩

/-! ## `src/sanitization/body_truncator.py` -/

/-- `TruncationResult` dataclass of `body_truncator.py`. -/
structure TruncationResult where
  body : String
  was_truncated : Bool
  original_length : Nat
  truncated_chars : Nat
  truncation_marker : Option String
  deriving Repr, DecidableEq

/-- `truncate_body(body, max_length)` of `body_truncator.py` (the
`max_length=None`-defaults-from-settings branch is not modelled: the length
is always passed explicitly). -/
def truncate_body (body : String) (max_length : Nat) : TruncationResult :=
  if body = "" then
    { body := ""
      was_truncated := false
      original_length := 0
      truncated_chars := 0
      truncation_marker := none }
  else if body.length ≤ max_length then
    { body := body
      was_truncated := false
      original_length := body.length
      truncated_chars := 0
      truncation_marker := none }
  else
    let truncated_chars := body.length - max_length
    { body := body.take max_length
      was_truncated := true
      original_length := body.length
      truncated_chars := truncated_chars
      truncation_marker := some ("... [truncated " ++ toString truncated_chars ++ " chars]") }

/-! ## `src/sanitization/rate_limiter.py` — error classification and backoff -/

/-- An exception as seen by `is_retryable_error`: an optional HTTP-like
`status_code` attribute and the message produced by `str(error)`. -/
structure PyError where
  status_code : Option Int
  msg : String
  deriving Repr, DecidableEq

/-- The message-substring fallback of `is_retryable_error`
(`rate_limiter.py` lines 153–166): keyword checks on the lowercased
message. -/
def msgHeuristic (raw : String) : Bool :=
  let error_msg := strLower raw
  if strContains error_msg "rate" && strContains error_msg "limit" then true
  else if strContains error_msg "quota" then true
  else if strContains error_msg "service unavailable" || strContains error_msg "503" then true
  else if strContains error_msg "timeout" || strContains error_msg "504" then true
  else false

/-- `is_retryable_error(error)` of `rate_limiter.py`: status codes
429/500/502/503/504 are retryable, 400/401/403/404 are not; any other case
falls through to the message-keyword heuristics, defaulting to `false`. -/
def is_retryable_error (e : PyError) : Bool :=
  match e.status_code with
  | some s =>
    if s ∈ ([429, 500, 502, 503, 504] : List Int) then true
    else if s ∈ ([400, 401, 403, 404] : List Int) then false
    else msgHeuristic e.msg
  | none => msgHeuristic e.msg

/-- `calculate_backoff_delay(attempt, base_delay, jitter_pct)` of
`rate_limiter.py`; the value sampled by `random.uniform(-jitter_pct,
jitter_pct)` is the explicit argument `jitter`. -/
def calculate_backoff_delay (attempt : Nat) (base_delay : ℚ) (jitter : ℚ) : ℚ :=
  let base_backoff := (2 ^ (attempt - 1) : ℚ) * base_delay
  base_backoff * (1 + jitter)

/-! ## `src/sanitization/rate_limiter.py` — `rate_limited_llm_call`

The retry loop is modelled with explicit time: `elapsed` advances only at
`time.sleep(delay)`. The external call is a function from the (1-indexed)
attempt number to an outcome; an exception carries its retryability (as
decided by `is_retryable_error`) and the already-parsed `Retry-After` value
(`parse_retry_after` on the header; `none` when absent or unparseable).
The sliding-window limiter's verdict for each attempt is likewise a
function of the attempt number. -/

/-- Outcome of one attempted external call. -/
inductive OracleOutcome where
  | ok
  | err (retryable : Bool) (retry_after : Option ℚ)
  deriving Repr, DecidableEq

/-- Terminal result of `rate_limited_llm_call`: which raise/return fired,
the elapsed (slept) time and the number of attempts consumed.
`loopError` is the defensive `RuntimeError` after the `while` loop. -/
inductive RetryResult where
  | success (elapsed : ℚ) (attempts : Nat)
  | nonRetryable (elapsed : ℚ) (attempts : Nat)
  | exhausted (elapsed : ℚ) (attempts : Nat)
  | timeCap (elapsed : ℚ) (attempts : Nat)
  | loopError (elapsed : ℚ) (attempts : Nat)
  deriving Repr, DecidableEq

/-- Elapsed time recorded in a `RetryResult`. -/
def RetryResult.elapsedOf : RetryResult → ℚ
  | .success e _ => e
  | .nonRetryable e _ => e
  | .exhausted e _ => e
  | .timeCap e _ => e
  | .loopError e _ => e

/-- Attempt count recorded in a `RetryResult`. -/
def RetryResult.attemptsOf : RetryResult → Nat
  | .success _ a => a
  | .nonRetryable _ a => a
  | .exhausted _ a => a
  | .timeCap _ a => a
  | .loopError _ a => a

/-- Is the result one of the two raises that end an all-retryable-failures
run (`retry.exhausted` or `retry.time_cap_exceeded`)? -/
def RetryResult.isFailureAbort : RetryResult → Bool
  | .exhausted _ _ => true
  | .timeCap _ _ => true
  | _ => false

/-- The delay chosen before a retry of a failed call (`rate_limiter.py`
lines 427–440): a truthy parsed `Retry-After` value overrides the computed
backoff (`0.0` is falsy in Python and falls back to backoff). -/
def nextRetryDelay (base_delay : ℚ) (jitter : Nat → ℚ) (a : Nat) (ra : Option ℚ) : ℚ :=
  match ra with
  | some d => if d ≠ 0 then d else calculate_backoff_delay a base_delay (jitter a)
  | none => calculate_backoff_delay a base_delay (jitter a)

/-- The `while attempt <= max_retries` loop of `rate_limited_llm_call`,
with `fuel` bounding the iteration count (the caller supplies
`max_retries + 1`, the exact number of admissible iterations). -/
def retryLoop (limiterOk : Nat → Bool) (oracle : Nat → OracleOutcome)
    (jitter : Nat → ℚ) (max_retries : Nat) (base_delay max_total_time : ℚ) :
    Nat → Nat → ℚ → RetryResult
  | 0, attempt, elapsed => .loopError elapsed attempt
  | fuel + 1, attempt, elapsed =>
    if attempt > max_retries then .loopError elapsed attempt
    else
      let a := attempt + 1
      if limiterOk a then
        match oracle a with
        | .ok => .success elapsed a
        | .err retryable retry_after =>
          if !retryable then .nonRetryable elapsed a
          else if a > max_retries then .exhausted elapsed a
          else
            let delay := nextRetryDelay base_delay jitter a retry_after
            if elapsed + delay > max_total_time then .timeCap elapsed a
            else
              retryLoop limiterOk oracle jitter max_retries base_delay max_total_time
                fuel a (elapsed + delay)
      else
        if a > max_retries then .exhausted elapsed a
        else
          let delay := calculate_backoff_delay a base_delay (jitter a)
          if elapsed + delay > max_total_time then .timeCap elapsed a
          else
            retryLoop limiterOk oracle jitter max_retries base_delay max_total_time
              fuel a (elapsed + delay)

/-- `rate_limited_llm_call(func, limiter=…, max_retries, base_delay,
max_total_time)`: retry context starts at `attempt = 0`, `elapsed = 0`. -/
def rate_limited_llm_call (limiterOk : Nat → Bool) (oracle : Nat → OracleOutcome)
    (jitter : Nat → ℚ) (max_retries : Nat) (base_delay max_total_time : ℚ) : RetryResult :=
  retryLoop limiterOk oracle jitter max_retries base_delay max_total_time
    (max_retries + 1) 0 0

/-! ## `src/agents/agent3_verifier.py` — data model

The evidence index of a run is the list of cleaned source emails; each
carries `message_id`, `subject` and `body_clean` (the fields read by
`verify_fact`). The graph is a `networkx.DiGraph`: an ordered association
list of nodes and of directed edges, each with an attribute record.
Every `add_node`/`add_edge` call site in `agent3_verifier.py` passes its
complete attribute set, so re-adding an existing node/edge is modelled as
replacing its attribute record (networkx merges attribute dicts; with all
keys supplied the merge is a replacement). -/

/-- One cleaned source email (one `EvidenceIndex` entry). -/
structure Email where
  message_id : String
  subject : String
  body_clean : String
  deriving Repr, DecidableEq

/-- The message ids of the run's source emails (the evidence index keys). -/
def sourceIds (source_emails : List Email) : List String :=
  source_emails.map (fun e => e.message_id)

/-- Node attributes: the union of the keyword sets passed to `add_node` by
the Project/Topic/Challenge/Resolution call sites (fields a site does not
set are `""`). `timeline` is the opaque dict payload, carried as a string. -/
structure NodeData where
  node_type : String
  name : String
  project_type : String
  timeline : String
  scope : String
  phase : String
  phase_reasoning : String
  description : String
  category : String
  raised_date : String
  resolved_date : String
  methodology : String
  evidence : List String
  deriving Repr, DecidableEq

/-- A node record with every attribute empty (a networkx node created with
no attributes reads back `''`/`[]` defaults through `.get`). -/
def emptyNodeData : NodeData :=
  { node_type := ""
    name := ""
    project_type := ""
    timeline := ""
    scope := ""
    phase := ""
    phase_reasoning := ""
    description := ""
    category := ""
    raised_date := ""
    resolved_date := ""
    methodology := ""
    evidence := [] }

/-- Edge attributes passed by every `add_edge` call site. -/
structure EdgeData where
  edge_type : String
  evidence : List String
  deriving Repr, DecidableEq

/-- A `networkx.DiGraph`: nodes and directed edges keyed by string ids. -/
structure Graph where
  nodes : List (String × NodeData)
  edges : List (String × String × EdgeData)
  deriving Repr, DecidableEq

/-- The empty graph (`nx.DiGraph()`). -/
def Graph.empty : Graph :=
  { nodes := [], edges := [] }

/-- `graph.has_node(id)`. -/
def Graph.hasNode (g : Graph) (id : String) : Bool :=
  g.nodes.any (fun p => p.1 = id)

/-- `graph.add_node(id, **attrs)`: update in place when present, else
append. -/
def Graph.addNode (g : Graph) (id : String) (d : NodeData) : Graph :=
  if g.hasNode id then
    { g with nodes := g.nodes.map (fun p => if p.1 = id then (id, d) else p) }
  else
    { g with nodes := g.nodes ++ [(id, d)] }

/-- networkx auto-creates a missing endpoint of `add_edge` as an
attribute-less node. -/
def Graph.ensureNode (g : Graph) (id : String) : Graph :=
  if g.hasNode id then g else { g with nodes := g.nodes ++ [(id, emptyNodeData)] }

/-- `graph.add_edge(u, v, **attrs)`: endpoints are created if absent and an
existing `(u, v)` edge has its attributes replaced. -/
def Graph.addEdge (g : Graph) (u v : String) (d : EdgeData) : Graph :=
  let g1 := (g.ensureNode u).ensureNode v
  if g1.edges.any (fun e => e.1 = u ∧ e.2.1 = v) then
    { g1 with
      edges := g1.edges.map (fun e => if e.1 = u ∧ e.2.1 = v then (u, v, d) else e) }
  else
    { g1 with edges := g1.edges ++ [(u, v, d)] }

/-! ## `src/agents/agent3_verifier.py` — extracted-intelligence input

Structures mirroring the `project_data` dict consumed by
`verify_and_add_project`; a field's value is what the corresponding
`.get(key, default)` yields. -/

/-- One entry of `project_data['topics']`. -/
structure TopicData where
  topic : String
  evidence : List String
  deriving Repr, DecidableEq

/-- One entry of `project_data['challenges']`. -/
structure ChallengeData where
  id : String
  description : String
  category : String
  raised_date : String
  evidence : List String
  deriving Repr, DecidableEq

/-- One entry of `project_data['resolutions']`. -/
structure ResolutionData where
  id : String
  resolves : String
  description : String
  resolved_date : String
  methodology : String
  evidence : List String
  deriving Repr, DecidableEq

/-- The `project_data` dict produced by the extractor. -/
structure ProjectData where
  project_id : String
  project_name : String
  project_type : String
  timeline : String
  scope_description : String
  phase : String
  phase_reasoning : String
  evidence : List String
  topics : List TopicData
  challenges : List ChallengeData
  resolutions : List ResolutionData
  deriving Repr, DecidableEq

/-- A rejection record appended to `GraphBuilder.rejected_facts`. -/
structure RejectedFact where
  claim : String
  reason : String
  evidence_ids : List String
  deriving Repr, DecidableEq

/-- `GraphBuilder` state: the graph plus the rejected-facts list. -/
structure BuilderState where
  graph : Graph
  rejected_facts : List RejectedFact
  deriving Repr, DecidableEq

/-- A fresh `GraphBuilder()`. -/
def BuilderState.init : BuilderState :=
  { graph := Graph.empty, rejected_facts := [] }

/-! ## `GraphBuilder.verify_fact`

The whole `try`-block — `rate_limited_llm_call(self.llm.invoke, prompt)`,
code-fence stripping, `json.loads`, `result.get('supported', False)` — is
the oracle: a function from the prompt to either a raised exception
(`.error`, any provider/parse failure) or the parsed `supported` field
(`.ok`; a parse that lacks the key yields `.ok false` via the `.get`
default). -/

/-- The composite LLM-verification call. -/
def Oracle : Type :=
  String → Except String Bool

/-- The `evidence_text` block interpolated into the verification prompt
(subject line plus the first 600 characters of the cleaned body). -/
def buildEvidenceText (evidence_emails : List Email) : String :=
  String.intercalate "\n\n" (evidence_emails.map (fun e =>
    "Email " ++ e.message_id ++ ":\n" ++
    "Subject: " ++ e.subject ++ "\n" ++
    "Body: " ++ e.body_clean.take 600))

/-- The verification prompt sent to the LLM. -/
def buildPrompt (claim : String) (evidence_text : String) : String :=
  "Verify if the evidence supports the claim.\n\n" ++
  "Claim: " ++ claim ++ "\n\n" ++
  "Evidence emails:\n" ++ evidence_text ++ "\n\n" ++
  "Answer YES only if the claim is directly stated or strongly implied in the evidence.\n" ++
  "Answer NO if the claim requires assumptions or is not supported.\n\n" ++
  "Output JSON: \x7b\"supported\": true/false, \"reasoning\": \"brief explanation\"\x7d\n\n" ++
  "Output ONLY the JSON, no additional text.\n"

/-- The cited source emails: `[e for e in source_emails if e['message_id']
in evidence_ids]`. -/
def citedEmails (evidence_ids : List String) (source_emails : List Email) : List Email :=
  source_emails.filter (fun e => evidence_ids.contains e.message_id)

/-- `GraphBuilder.verify_fact(claim, evidence_ids, source_emails)`:
reject locally when no cited id matches a source email, otherwise ask the
oracle; any oracle exception is caught and rejected. -/
def verify_fact (o : Oracle) (claim : String) (evidence_ids : List String)
    (source_emails : List Email) : Bool :=
  let evidence_emails := citedEmails evidence_ids source_emails
  if evidence_emails.isEmpty then false
  else
    match o (buildPrompt claim (buildEvidenceText evidence_emails)) with
    | .error _ => false
    | .ok supported => supported

/-! ## `src/agents/agent3_verifier.py` — insertion operations -/

/-- The topic-id normalization
`topic_name.lower().replace(' ', '_').replace('/', '_')` (all three steps
are per-character). -/
def normalizeTopicName (s : String) : String :=
  ⟨s.data.map (fun c =>
    let cl := c.toLower
    if cl = ' ' || cl = '/' then '_' else cl)⟩

/-- The attribute set passed by the Project `add_node` call. -/
def projectNodeData (p : ProjectData) : NodeData :=
  { emptyNodeData with
    node_type := "Project", name := p.project_name,
    project_type := p.project_type, timeline := p.timeline,
    scope := p.scope_description, phase := p.phase,
    phase_reasoning := p.phase_reasoning, evidence := p.evidence }

/-- The attribute set passed by the Topic `add_node` call. -/
def topicNodeData (t : TopicData) : NodeData :=
  { emptyNodeData with node_type := "Topic", name := t.topic, evidence := t.evidence }

/-- The attribute set passed by the Challenge `add_node` call. -/
def challengeNodeData (c : ChallengeData) : NodeData :=
  { emptyNodeData with
    node_type := "Challenge", description := c.description,
    category := c.category, raised_date := c.raised_date,
    evidence := c.evidence }

/-- The attribute set passed by the Resolution `add_node` call. -/
def resolutionNodeData (r : ResolutionData) : NodeData :=
  { emptyNodeData with
    node_type := "Resolution", description := r.description,
    resolved_date := r.resolved_date, methodology := r.methodology,
    evidence := r.evidence }

/-- `GraphBuilder._add_topic(project_id, topic, source_emails)`. The
topic rejection record has no `evidence_ids` key; its field is `[]`. -/
def addTopic (o : Oracle) (source_emails : List Email) (project_id : String)
    (t : TopicData) (st : BuilderState) : BuilderState :=
  let topic_id := "topic_" ++ normalizeTopicName t.topic
  if verify_fact o ("Project discusses topic: " ++ t.topic) t.evidence source_emails then
    { st with
      graph :=
        (st.graph.addNode topic_id (topicNodeData t)).addEdge project_id topic_id
          { edge_type := "HAS_TOPIC", evidence := t.evidence } }
  else
    { st with
      rejected_facts := st.rejected_facts ++
        [{ claim := "Topic: " ++ t.topic
           reason := "Cannot verify from evidence"
           evidence_ids := [] }] }

/-- `GraphBuilder._add_challenge(project_id, challenge, source_emails)`. -/
def addChallenge (o : Oracle) (source_emails : List Email) (project_id : String)
    (c : ChallengeData) (st : BuilderState) : BuilderState :=
  let challenge_id := project_id ++ "_" ++ c.id
  if verify_fact o ("Challenge: " ++ c.description) c.evidence source_emails then
    { st with
      graph :=
        (st.graph.addNode challenge_id (challengeNodeData c)).addEdge project_id challenge_id
          { edge_type := "FACED_CHALLENGE", evidence := c.evidence } }
  else
    { st with
      rejected_facts := st.rejected_facts ++
        [{ claim := "Challenge: " ++ c.description
           reason := "Cannot verify from evidence"
           evidence_ids := [] }] }

/-- `GraphBuilder._add_resolution(project_id, resolution, source_emails)`:
after adding the Resolution node, link from the referenced challenge when
`self.graph.has_node(challenge_id)`, else from the owning project. -/
def addResolution (o : Oracle) (source_emails : List Email) (project_id : String)
    (r : ResolutionData) (st : BuilderState) : BuilderState :=
  let resolution_id := project_id ++ "_" ++ r.id
  let challenge_id := project_id ++ "_" ++ r.resolves
  if verify_fact o ("Resolution: " ++ r.description) r.evidence source_emails then
    let g1 := st.graph.addNode resolution_id (resolutionNodeData r)
    if g1.hasNode challenge_id then
      { st with
        graph := g1.addEdge challenge_id resolution_id
          { edge_type := "RESOLVED_BY", evidence := r.evidence } }
    else
      { st with
        graph := g1.addEdge project_id resolution_id
          { edge_type := "HAS_RESOLUTION", evidence := r.evidence } }
  else
    { st with
      rejected_facts := st.rejected_facts ++
        [{ claim := "Resolution: " ++ r.description
           reason := "Cannot verify from evidence"
           evidence_ids := [] }] }

/-- `GraphBuilder.verify_and_add_project(project_data, source_emails)`:
verify the project-name fact, then insert the Project node and process the
topics, challenges and resolutions in order. Returns the `project_id`
(`none` models Python's `None` on rejection). -/
def verify_and_add_project (o : Oracle) (p : ProjectData)
    (source_emails : List Email) (st : BuilderState) : Option String × BuilderState :=
  let project_id := p.project_id
  if verify_fact o ("Project named \x27" ++ p.project_name ++ "\x27")
      p.evidence source_emails then
    let st1 := { st with graph := st.graph.addNode project_id (projectNodeData p) }
    let st2 := p.topics.foldl (fun s t => addTopic o source_emails project_id t s) st1
    let st3 := p.challenges.foldl (fun s c => addChallenge o source_emails project_id c s) st2
    let st4 := p.resolutions.foldl (fun s r => addResolution o source_emails project_id r s) st3
    (some project_id, st4)
  else
    (none,
      { st with
        rejected_facts := st.rejected_facts ++
          [{ claim := "Project: " ++ p.project_name
             reason := "Cannot verify project name from evidence"
             evidence_ids := p.evidence }] })

/-- `agent_3_verifier(state)`: a fresh `GraphBuilder` processes every
extracted project against the run's cleaned emails. -/
def agent_3_verifier_run (o : Oracle) (source_emails : List Email)
    (projects : List ProjectData) : BuilderState :=
  projects.foldl (fun st p => (verify_and_add_project o p source_emails st).2)
    BuilderState.init

/-! ## `src/evaluation/trust_score.py`

Arithmetic is over `ℚ`. Python's `round(x, 3)` is modelled as rounding
`x * 1000` to the nearest integer (ties at half are a convention of the
model; the spec fixes only "rounded to 3 decimals"). -/

/-- `round(x, 3)`. -/
def round3 (x : ℚ) : ℚ :=
  ((round (x * 1000) : ℤ) : ℚ) / 1000

/-- `calculate_fact_traceability(graph, source_emails)`: the share of
nodes+edges whose evidence list is non-empty and mentions at least one
source message id. -/
def calculate_fact_traceability (g : Graph) (source_emails : List Email) : ℚ :=
  let source_message_ids := sourceIds source_emails
  let total_facts := g.nodes.length + g.edges.length
  let traceable_facts :=
    g.nodes.countP (fun p =>
      !p.2.evidence.isEmpty && p.2.evidence.any (fun eid => source_message_ids.contains eid)) +
    g.edges.countP (fun e =>
      !e.2.2.evidence.isEmpty && e.2.2.evidence.any (fun eid => source_message_ids.contains eid))
  if total_facts > 0 then (traceable_facts : ℚ) / (total_facts : ℚ) else 0

/-- `detect_hallucinations(graph, source_emails)`: flagged **nodes** only,
as `(node id, reason)` pairs (the further diagnostic dict keys are
elided). -/
def detect_hallucinations (g : Graph) (source_emails : List Email) :
    List (String × String) :=
  let source_message_ids := sourceIds source_emails
  g.nodes.filterMap (fun p =>
    if p.2.evidence.isEmpty then
      some (p.1, "No evidence provided")
    else if (p.2.evidence.filter (fun eid => source_message_ids.contains eid)).isEmpty then
      some (p.1, "Evidence IDs not found in source emails")
    else none)

/-- `count_extracted_facts(graph)`: nodes + edges. -/
def count_extracted_facts (g : Graph) : Nat :=
  g.nodes.length + g.edges.length

/-- `estimate_completeness(graph, source_emails)`: the no-ground-truth
heuristic. -/
def estimate_completeness (g : Graph) (source_emails : List Email) : ℚ :=
  let num_emails := source_emails.length
  let num_facts := count_extracted_facts g
  let expected_facts := num_emails * 4
  let coverage_ratio :=
    if expected_facts > 0 then min ((num_facts : ℚ) / (expected_facts : ℚ)) 1 else 0
  let source_id_set := (sourceIds source_emails).dedup
  let used_count :=
    source_id_set.countP (fun i => g.nodes.any (fun p => p.2.evidence.contains i))
  let evidence_coverage :=
    if source_id_set.isEmpty then 0
    else (used_count : ℚ) / (source_id_set.length : ℚ)
  coverage_ratio * (6 / 10) + evidence_coverage * (4 / 10)

/-- One project's ground-truth annotation. -/
structure GTProject where
  project_name : String
  topics : List String
  challenges : List String
  resolutions : List String
  phase : String
  deriving Repr, DecidableEq

/-- The `ground_truth` dict (its `projects` mapping, in dict order). A
Python value that is falsy or lacks the `projects` key is `none` at the
`calculate_trust_score` branch. -/
structure GroundTruth where
  projects : List (String × GTProject)
  deriving Repr, DecidableEq

/-- `count_ground_truth_facts(ground_truth)`. -/
def count_ground_truth_facts (gt : GroundTruth) : Nat :=
  gt.projects.foldl
    (fun total pr =>
      total + 1 + pr.2.topics.length + pr.2.challenges.length + pr.2.resolutions.length)
    0

/-- The case-insensitive mutual-substring name match used by
`count_matching_facts` and `calculate_phase_accuracy`. -/
def nameMatch (gt_name extracted_name : String) : Bool :=
  strContains (strLower extracted_name) (strLower gt_name) ||
  strContains (strLower gt_name) (strLower extracted_name)

/-- Attributes of the node with the given id (`graph.nodes[n]`; the id is
always present where the source reads it). -/
def Graph.getNode (g : Graph) (id : String) : NodeData :=
  (((g.nodes.find? (fun p => p.1 = id)).map (fun p => p.2)).getD emptyNodeData)

/-- Names (lowercased) of the Topic successors of a node
(`graph.neighbors(node)` on a `DiGraph` iterates successors). -/
def topicNeighborNames (g : Graph) (id : String) : List String :=
  ((g.edges.filter (fun e => e.1 = id)).map (fun e => e.2.1)).filterMap (fun n =>
    if (g.getNode n).node_type = "Topic" then some (strLower (g.getNode n).name) else none)

/-- `count_matching_facts(graph, ground_truth)`: for each ground-truth
project, the first Project node matching by name scores 1 plus the number
of its ground-truth topics found among that node's Topic successors. -/
def count_matching_facts (g : Graph) (gt : GroundTruth) : Nat :=
  let project_nodes := g.nodes.filter (fun p => p.2.node_type = "Project")
  gt.projects.foldl
    (fun matching pr =>
      match project_nodes.find? (fun p => nameMatch pr.2.project_name p.2.name) with
      | none => matching
      | some p =>
        let gt_topics := (pr.2.topics.map strLower).dedup
        let extracted_topics := topicNeighborNames g p.1
        matching + 1 + gt_topics.countP (fun t => extracted_topics.contains t))
    0

/-- `calculate_extraction_completeness(graph, ground_truth)` (called only
when ground truth with a `projects` key is present). -/
def calculate_extraction_completeness (g : Graph) (gt : GroundTruth) : ℚ :=
  let gt_facts := count_ground_truth_facts gt
  let correctly_extracted := count_matching_facts g gt
  if gt_facts > 0 then (correctly_extracted : ℚ) / (gt_facts : ℚ) else 0

/-- `calculate_phase_accuracy(graph, ground_truth)`: over Project nodes
that match some ground-truth project by name, the share whose `phase`
equals the ground-truth phase. -/
def calculate_phase_accuracy (g : Graph) (gt : GroundTruth) : ℚ :=
  let project_nodes := g.nodes.filter (fun p => p.2.node_type = "Project")
  if project_nodes.isEmpty then 0
  else
    let pairs := project_nodes.filterMap (fun p =>
      (gt.projects.find? (fun q => nameMatch q.2.project_name p.2.name)).map
        (fun q => (p, q)))
    let total_projects := pairs.length
    let correct_phases := pairs.countP (fun pq => pq.1.2.phase = pq.2.2.phase)
    if total_projects > 0 then (correct_phases : ℚ) / (total_projects : ℚ) else 0

/-- The metrics dict returned by `calculate_trust_score`. -/
structure TrustMetrics where
  trust_score : ℚ
  fact_traceability : ℚ
  extraction_completeness : ℚ
  phase_accuracy : ℚ
  hallucination_rate : ℚ
  hallucinations : List (String × String)
  total_facts : Nat
  traceable_facts : ℤ
  deriving Repr, DecidableEq

/-- The inline hallucination-rate computation of `calculate_trust_score`
(`len(hallucinations) / total_facts if total_facts > 0 else 0`). -/
def hallucination_rate (g : Graph) (source_emails : List Email) : ℚ :=
  let total_facts := count_extracted_facts g
  if total_facts > 0 then
    ((detect_hallucinations g source_emails).length : ℚ) / (total_facts : ℚ)
  else 0

/-- `calculate_trust_score(extracted_graph, ground_truth, source_emails)`. -/
def calculate_trust_score (g : Graph) (ground_truth : Option GroundTruth)
    (source_emails : List Email) : TrustMetrics :=
  let fact_traceability := calculate_fact_traceability g source_emails
  let extraction_completeness :=
    match ground_truth with
    | some gt => calculate_extraction_completeness g gt
    | none => estimate_completeness g source_emails
  let phase_accuracy :=
    match ground_truth with
    | some gt => calculate_phase_accuracy g gt
    | none => 0
  let hallucinations := detect_hallucinations g source_emails
  let total_facts := count_extracted_facts g
  let hr := hallucination_rate g source_emails
  let trust_score :=
    fact_traceability * (35 / 100) +
    extraction_completeness * (25 / 100) +
    phase_accuracy * (20 / 100) +
    (1 - hr) * (20 / 100)
  { trust_score := round3 trust_score
    fact_traceability := round3 fact_traceability
    extraction_completeness := round3 extraction_completeness
    phase_accuracy := round3 phase_accuracy
    hallucination_rate := round3 hr
    hallucinations := hallucinations
    total_facts := total_facts
    traceable_facts := ((total_facts : ℚ) * fact_traceability).floor }

/-! ## Claim C6 — `truncate_body` contract -/

/-- C6 (amended): for every text and maxLen, `truncate_body` returns the
text unchanged with `was_truncated = false` (and no marker) when
`len(text) ≤ maxLen`; otherwise it returns `was_truncated = true`,
`original_length = len(text)`, output text equal to the first maxLen
characters, and the visible marker `"... [truncated N chars]"`
(`N = len(text) − maxLen`) in the separate `truncation_marker` field —
the marker is *not* appended to the output text. -/
theorem c6_truncate_contract (body : String) (max_length : Nat) :
    (body.length ≤ max_length →
      (truncate_body body max_length).body = body ∧
      (truncate_body body max_length).was_truncated = false ∧
      (truncate_body body max_length).original_length = body.length ∧
      (truncate_body body max_length).truncation_marker = none) ∧
    (max_length < body.length →
      (truncate_body body max_length).was_truncated = true ∧
      (truncate_body body max_length).original_length = body.length ∧
      (truncate_body body max_length).body = body.take max_length ∧
      (truncate_body body max_length).truncated_chars = body.length - max_length ∧
      (truncate_body body max_length).truncation_marker =
        some ("... [truncated " ++ toString (body.length - max_length) ++ " chars]")) := by
  by_cases hempty : body = ""
  · subst hempty
    constructor
    · intro _
      simp [truncate_body]
    · intro hlt
      simp at hlt
  · constructor
    · intro hle
      simp [truncate_body, hempty, hle]
    · intro hlt
      simp [truncate_body, hempty, Nat.not_le.mpr hlt]

/-- Witness for C6 at `"hello"`/10 and `"abcdef"`/3. -/
theorem c6_truncate_contract_witness :
    (truncate_body "hello" 10).body = "hello" ∧
    (truncate_body "abcdef" 3).body = "abcdef".take 3 ∧
    (truncate_body "abcdef" 3).truncation_marker =
      some ("... [truncated " ++ toString ("abcdef".length - 3) ++ " chars]") := by
  refine ⟨((c6_truncate_contract "hello" 10).1 (by decide)).1, ?_, ?_⟩
  · exact ((c6_truncate_contract "abcdef" 3).2 (by decide)).2.2.1
  · exact ((c6_truncate_contract "abcdef" 3).2 (by decide)).2.2.2.2

/-- C6 counterexample: the claim as stated requires the output text to be
the first maxLen characters **with the marker appended**; on
`truncate_body("abcdef", 3)` the code returns body `"abc"` without the
marker (it is reported separately). -/
theorem c6_truncate_counterexample :
    (truncate_body "abcdef" 3).was_truncated = true ∧
    (truncate_body "abcdef" 3).body = "abc" ∧
    "abc" ≠ "abc" ++ "... [truncated 3 chars]" := by
  refine ⟨rfl, rfl, ?_⟩
  decide

/-! ## Claim C8 — error classification -/

/-- C8: status codes 429/500/502/503/504 classify retryable and
400/401/403/404 non-retryable; with no status attached the classification
is exactly the message-substring heuristic over the lowercased message
("rate"+"limit", "quota", "service unavailable"/"503", "timeout"/"504"),
so a generic exception whose message matches none of them is
non-retryable. -/
theorem c8_is_retryable_classification (e : PyError) (s : Int) :
    (e.status_code = some s →
      ((s = 429 ∨ s = 500 ∨ s = 502 ∨ s = 503 ∨ s = 504) →
        is_retryable_error e = true) ∧
      ((s = 400 ∨ s = 401 ∨ s = 403 ∨ s = 404) →
        is_retryable_error e = false)) ∧
    (e.status_code = none →
      is_retryable_error e =
        (strContains (strLower e.msg) "rate" && strContains (strLower e.msg) "limit" ||
         strContains (strLower e.msg) "quota" ||
         (strContains (strLower e.msg) "service unavailable" ||
          strContains (strLower e.msg) "503") ||
         (strContains (strLower e.msg) "timeout" || strContains (strLower e.msg) "504"))) := by
  constructor
  · intro h
    constructor
    · intro hs
      simp only [is_retryable_error, h]
      rcases hs with rfl | rfl | rfl | rfl | rfl <;>
        rw [if_pos (by norm_num)]
    · intro hs
      simp only [is_retryable_error, h]
      rcases hs with rfl | rfl | rfl | rfl <;>
        rw [if_neg (by norm_num), if_pos (by norm_num)]
  · intro h
    simp only [is_retryable_error, h, msgHeuristic]
    generalize strContains (strLower e.msg) "rate" = b1
    generalize strContains (strLower e.msg) "limit" = b2
    generalize strContains (strLower e.msg) "quota" = b3
    generalize strContains (strLower e.msg) "service unavailable" = b4
    generalize strContains (strLower e.msg) "503" = b5
    generalize strContains (strLower e.msg) "timeout" = b6
    generalize strContains (strLower e.msg) "504" = b7
    cases b1 <;> cases b2 <;> cases b3 <;> cases b4 <;> cases b5 <;> cases b6 <;> cases b7 <;> rfl

/-- Witness for C8: a 503 error is retryable, a status-less error with a
keyword-free message is not, and a status-less "rate limit" message is. -/
theorem c8_is_retryable_classification_witness :
    is_retryable_error { status_code := some 503, msg := "boom" } = true ∧
    is_retryable_error { status_code := none, msg := "bad things happened" } = false ∧
    is_retryable_error { status_code := none, msg := "Rate limit hit" } = true := by
  refine ⟨?_, ?_, ?_⟩
  · exact ((c8_is_retryable_classification { status_code := some 503, msg := "boom" } 503).1
      rfl).1 (by tauto)
  · have h := (c8_is_retryable_classification
      { status_code := none, msg := "bad things happened" } 0).2 rfl
    rw [h]
    decide
  · have h := (c8_is_retryable_classification
      { status_code := none, msg := "Rate limit hit" } 0).2 rfl
    rw [h]
    decide

/-! ## Claim C9 — backoff with jitter bound -/

/-- C9: the backoff delay for attempt `n ≥ 1` with base `b > 0` and
sampled jitter `j ∈ [-0.2, 0.2]` equals `2^(n-1) * b * (1+j)` and lies in
`[0.8 * 2^(n-1) * b, 1.2 * 2^(n-1) * b]`; for `b = 1` attempts 1, 2, 3
land in `[0.8, 1.2]`, `[1.6, 2.4]`, `[3.2, 4.8]`. -/
theorem c9_backoff_jitter_bounds (n : Nat) (b j : ℚ) (hn : 1 ≤ n) (hb : 0 < b)
    (hj₁ : -(2 / 10) ≤ j) (hj₂ : j ≤ 2 / 10) :
    calculate_backoff_delay n b j = 2 ^ (n - 1) * b * (1 + j) ∧
    (8 / 10) * (2 ^ (n - 1) * b) ≤ calculate_backoff_delay n b j ∧
    calculate_backoff_delay n b j ≤ (12 / 10) * (2 ^ (n - 1) * b) ∧
    (b = 1 →
      (n = 1 → (8 / 10 : ℚ) ≤ calculate_backoff_delay n b j ∧
        calculate_backoff_delay n b j ≤ 12 / 10) ∧
      (n = 2 → (16 / 10 : ℚ) ≤ calculate_backoff_delay n b j ∧
        calculate_backoff_delay n b j ≤ 24 / 10) ∧
      (n = 3 → (32 / 10 : ℚ) ≤ calculate_backoff_delay n b j ∧
        calculate_backoff_delay n b j ≤ 48 / 10)) := by
  have hB : (0 : ℚ) < 2 ^ (n - 1) * b := mul_pos (pow_pos (by norm_num) _) hb
  have hlow : (8 / 10) * (2 ^ (n - 1) * b) ≤ calculate_backoff_delay n b j := by
    have hp := mul_nonneg (le_of_lt hB) (by linarith : (0 : ℚ) ≤ j + 2 / 10)
    unfold calculate_backoff_delay
    nlinarith [hp]
  have hhigh : calculate_backoff_delay n b j ≤ (12 / 10) * (2 ^ (n - 1) * b) := by
    have hp := mul_nonneg (le_of_lt hB) (by linarith : (0 : ℚ) ≤ 2 / 10 - j)
    unfold calculate_backoff_delay
    nlinarith [hp]
  refine ⟨rfl, hlow, hhigh, ?_⟩
  intro hb1
  subst hb1
  refine ⟨?_, ?_, ?_⟩ <;> intro hn' <;> subst hn' <;>
    simp only [calculate_backoff_delay] <;> constructor <;> norm_num <;> linarith

/-- Witness for C9 at attempt 2, base 1, jitter 1/10. -/
theorem c9_backoff_jitter_bounds_witness :
    calculate_backoff_delay 2 1 (1 / 10) = 2 ^ (2 - 1) * 1 * (1 + 1 / 10) ∧
    (16 / 10 : ℚ) ≤ calculate_backoff_delay 2 1 (1 / 10) ∧
    calculate_backoff_delay 2 1 (1 / 10) ≤ 24 / 10 := by
  have h := c9_backoff_jitter_bounds 2 1 (1 / 10) (by norm_num) (by norm_num)
    (by norm_num) (by norm_num)
  exact ⟨h.1, (h.2.2.2 rfl).2.1 rfl⟩

/-! ## Claim C2 — the verifier fails closed -/

/-- C2: `verify_fact` accepts exactly when some cited id matches a source
email **and** the oracle call returns `supported = true`; when no cited id
matches (in particular when the cited list is empty) the result is `false`
for *every* oracle — the oracle is never consulted — and an oracle
exception or "unsupported" verdict also yields `false`. -/
theorem c2_verify_fact_fail_closed (o : Oracle) (claim : String)
    (evidence_ids : List String) (source_emails : List Email) :
    (verify_fact o claim evidence_ids source_emails = true ↔
      (citedEmails evidence_ids source_emails ≠ [] ∧
       o (buildPrompt claim (buildEvidenceText (citedEmails evidence_ids source_emails))) =
         .ok true)) ∧
    (citedEmails evidence_ids source_emails = [] →
      ∀ o₂ : Oracle, verify_fact o₂ claim evidence_ids source_emails = false) ∧
    (evidence_ids = [] →
      ∀ o₂ : Oracle, verify_fact o₂ claim evidence_ids source_emails = false) := by
  have hnil : evidence_ids = [] → citedEmails evidence_ids source_emails = [] := by
    intro h
    subst h
    simp [citedEmails]
  refine ⟨?_, ?_, ?_⟩
  · unfold verify_fact
    rcases hc : citedEmails evidence_ids source_emails with _ | ⟨x, xs⟩
    · simp
    · simp only [List.isEmpty_cons, if_false, Bool.false_eq_true]
      rcases ho : o (buildPrompt claim (buildEvidenceText (x :: xs))) with msg | b
      · simp
      · simp
  · intro h o₂
    unfold verify_fact
    rw [h]
    simp
  · intro h o₂
    unfold verify_fact
    rw [hnil h]
    simp

/-- Witness for C2: with no matching evidence an always-yes oracle is still
rejected; with matching evidence the oracle verdict decides. -/
theorem c2_verify_fact_fail_closed_witness :
    verify_fact (fun _ => .ok true) "claim" ["ghost"]
      [{ message_id := "m1", subject := "s", body_clean := "b" }] = false ∧
    verify_fact (fun _ => .ok true) "claim" ["m1"]
      [{ message_id := "m1", subject := "s", body_clean := "b" }] = true ∧
    verify_fact (fun _ => .error "boom") "claim" ["m1"]
      [{ message_id := "m1", subject := "s", body_clean := "b" }] = false := by
  refine ⟨?_, ?_, ?_⟩
  · exact (c2_verify_fact_fail_closed (fun _ => .ok true) "claim" ["ghost"]
      [{ message_id := "m1", subject := "s", body_clean := "b" }]).2.1 (by decide)
      (fun _ => .ok true)
  · exact (c2_verify_fact_fail_closed (fun _ => .ok true) "claim" ["m1"]
      [{ message_id := "m1", subject := "s", body_clean := "b" }]).1.mpr
      ⟨by decide, rfl⟩
  · have h := (c2_verify_fact_fail_closed (fun _ => .error "boom") "claim" ["m1"]
      [{ message_id := "m1", subject := "s", body_clean := "b" }]).1
    rcases hv : verify_fact (fun _ => .error "boom") "claim" ["m1"]
      [{ message_id := "m1", subject := "s", body_clean := "b" }] with _ | _
    · rfl
    · exact absurd (h.mp hv).2 (by simp)

/-! ## Claim C4 — hallucination rate -/

/-- A generic list fact: the filter of a list is empty exactly when no
element satisfies the predicate. -/
theorem filter_isEmpty_eq_not_any {α : Type} (p : α → Bool) (l : List α) :
    (l.filter p).isEmpty = !l.any p := by
  induction l with
  | nil => rfl
  | cons x t ih =>
    by_cases h : p x = true
    · simp [List.filter_cons, h]
    · simp only [Bool.not_eq_true] at h
      simp [List.filter_cons, h, ih]

/-- The flagged-node count of `detect_hallucinations`, over an explicit id
list: an entry is produced exactly when its valid-evidence filter is
empty. -/
theorem detect_aux (ids : List String) (l : List (String × NodeData)) :
    (l.filterMap (fun p =>
      if p.2.evidence.isEmpty then some (p.1, "No evidence provided")
      else if (p.2.evidence.filter (fun eid => ids.contains eid)).isEmpty then
        some (p.1, "Evidence IDs not found in source emails")
      else none)).length =
    l.countP (fun p => (p.2.evidence.filter (fun eid => ids.contains eid)).isEmpty) := by
  induction l with
  | nil => rfl
  | cons x t ih =>
    rw [List.countP_cons]
    cases h2 : (x.2.evidence.filter (fun eid => ids.contains eid)).isEmpty
    · have h1 : x.2.evidence.isEmpty = false := by
        cases hev : x.2.evidence with
        | nil => rw [hev] at h2; simp at h2
        | cons a b => rfl
      rw [List.filterMap_cons_none
        (by rw [if_neg (by rw [h1]; simp), if_neg (by rw [h2]; simp)]), ih]
      simp
    · cases h1 : x.2.evidence.isEmpty
      · rw [List.filterMap_cons_some
          (by rw [if_neg (by rw [h1]; simp), if_pos h2]), List.length_cons, ih]
        simp
      · rw [List.filterMap_cons_some (by rw [if_pos h1]), List.length_cons, ih]
        simp

/-- `detect_hallucinations` flags exactly the nodes none of whose evidence
ids occur among the source message ids (an empty evidence list included). -/
theorem detect_hallucinations_length (g : Graph) (es : List Email) :
    (detect_hallucinations g es).length =
      g.nodes.countP (fun p =>
        !(p.2.evidence.any (fun i => (sourceIds es).contains i))) := by
  have h := detect_aux (sourceIds es) g.nodes
  have hq : g.nodes.countP
      (fun p => (p.2.evidence.filter (fun eid => (sourceIds es).contains eid)).isEmpty) =
      g.nodes.countP (fun p => !(p.2.evidence.any (fun i => (sourceIds es).contains i))) := by
    refine List.countP_congr (fun x _ => ?_)
    rw [filter_isEmpty_eq_not_any]
  exact h.trans hq

/-- Modelled from the spec: the claim's `HallucinationRate` formula — the
number of **nodes and edges** whose evidence is empty or wholly absent from
the source message ids, over the number of nodes plus edges (0 for an empty
graph). For comparison against the code's `hallucination_rate`. -/
def specHallucinationRate (g : Graph) (source_emails : List Email) : ℚ :=
  let ids := sourceIds source_emails
  let bad_nodes := g.nodes.countP (fun p => !(p.2.evidence.any (fun i => ids.contains i)))
  let bad_edges := g.edges.countP (fun e => !(e.2.2.evidence.any (fun i => ids.contains i)))
  let total := g.nodes.length + g.edges.length
  if total = 0 then 0 else ((bad_nodes + bad_edges : Nat) : ℚ) / (total : ℚ)

/-- A two-node graph whose single edge carries empty evidence. -/
def c4Graph : Graph :=
  { nodes :=
      [("n1", { emptyNodeData with evidence := ["m1"] }),
       ("n2", { emptyNodeData with evidence := ["m1"] })]
    edges := [("n1", "n2", { edge_type := "COMMUNICATED", evidence := [] })] }

/-- The one-email corpus for the C4 counterexample. -/
def c4Emails : List Email :=
  [{ message_id := "m1", subject := "s", body_clean := "b" }]

/-- C4 counterexample: on a graph with two evidence-complete nodes and one
evidence-empty edge, the code's hallucination rate is 0 (edges are never
scanned) while the claim's formula gives 1/3. -/
theorem c4_hallucination_rate_counterexample :
    hallucination_rate c4Graph c4Emails = 0 ∧
    specHallucinationRate c4Graph c4Emails = 1 / 3 ∧
    hallucination_rate c4Graph c4Emails ≠ specHallucinationRate c4Graph c4Emails := by
  have h1 : hallucination_rate c4Graph c4Emails = 0 := by
    have hd : detect_hallucinations c4Graph c4Emails = [] := by rfl
    unfold hallucination_rate
    rw [hd]
    have ht : count_extracted_facts c4Graph = 3 := by rfl
    rw [ht]
    norm_num
  have h2 : specHallucinationRate c4Graph c4Emails = 1 / 3 := by
    have e1 : c4Graph.nodes.countP
        (fun p => !(p.2.evidence.any (fun i => (sourceIds c4Emails).contains i))) = 0 := by
      decide
    have e2 : c4Graph.edges.countP
        (fun e => !(e.2.2.evidence.any (fun i => (sourceIds c4Emails).contains i))) = 1 := by
      decide
    simp only [specHallucinationRate, e1, e2]
    norm_num [c4Graph]
  refine ⟨h1, h2, ?_⟩
  rw [h1, h2]
  norm_num

/-- C4 (amended): the code's hallucination rate divides the number of
**nodes** with empty-or-wholly-invalid evidence by the total number of
nodes plus edges (0 for an empty graph); edges never enter the numerator. -/
theorem c4_hallucination_rate_nodes_only (g : Graph) (es : List Email) :
    hallucination_rate g es =
      (if count_extracted_facts g = 0 then 0
       else ((g.nodes.countP (fun p =>
         !(p.2.evidence.any (fun i => (sourceIds es).contains i)))) : ℚ) /
         (count_extracted_facts g : ℚ)) := by
  unfold hallucination_rate
  rcases Nat.eq_zero_or_pos (count_extracted_facts g) with h | h
  · simp [h]
  · rw [if_pos h, if_neg (by omega), detect_hallucinations_length]

/-- Witness for the amended C4 on the counterexample graph. -/
theorem c4_hallucination_rate_nodes_only_witness :
    hallucination_rate c4Graph c4Emails =
      ((c4Graph.nodes.countP (fun p =>
        !(p.2.evidence.any (fun i => (sourceIds c4Emails).contains i)))) : ℚ) /
        (count_extracted_facts c4Graph : ℚ) := by
  have h := c4_hallucination_rate_nodes_only c4Graph c4Emails
  rw [h, if_neg (by decide)]

/-! ## Claim C5 — the trust-score formula -/

/-- C5: the returned trust score is
`0.35·FactTraceability + 0.25·ExtractionCompleteness + 0.20·PhaseAccuracy
+ 0.20·(1 − HallucinationRate)` rounded to 3 decimals, where
ExtractionCompleteness and PhaseAccuracy come from ground truth when it is
supplied and PhaseAccuracy is 0 (and the completeness heuristic is used)
when it is not. -/
theorem c5_trust_score_formula (g : Graph) (gt : Option GroundTruth) (es : List Email) :
    (calculate_trust_score g gt es).trust_score =
      round3 ((35 / 100) * calculate_fact_traceability g es +
        (25 / 100) * (match gt with
          | some v => calculate_extraction_completeness g v
          | none => estimate_completeness g es) +
        (20 / 100) * (match gt with
          | some v => calculate_phase_accuracy g v
          | none => 0) +
        (20 / 100) * (1 - hallucination_rate g es)) ∧
    (calculate_trust_score g none es).phase_accuracy = 0 := by
  constructor
  · cases gt <;>
      exact congrArg round3 (by simp only [calculate_trust_score]; ring)
  · show round3 0 = 0
    simp [round3]

/-! ## Claim C10 — the total-time cap -/

/-- Against a run in which every attempted call fails with a retryable
error, the retry loop aborts (exhausted or time-capped) without the slept
time ever exceeding the cap, and without exceeding `max_retries + 1`
attempts. Fuel accounting: `attempt + fuel = max_retries + 1` throughout. -/
theorem retryLoop_always_fail_abort (limiterOk : Nat → Bool)
    (oracle : Nat → OracleOutcome) (jitter : Nat → ℚ) (max_retries : Nat)
    (base_delay max_total_time : ℚ)
    (hfail : ∀ a, ∃ ra, oracle a = .err true ra) :
    ∀ fuel attempt elapsed, attempt ≤ max_retries →
      attempt + fuel = max_retries + 1 → elapsed ≤ max_total_time →
      ((retryLoop limiterOk oracle jitter max_retries base_delay max_total_time
          fuel attempt elapsed).isFailureAbort = true ∧
       (retryLoop limiterOk oracle jitter max_retries base_delay max_total_time
          fuel attempt elapsed).elapsedOf ≤ max_total_time ∧
       (retryLoop limiterOk oracle jitter max_retries base_delay max_total_time
          fuel attempt elapsed).attemptsOf ≤ max_retries + 1) := by
  intro fuel
  induction fuel with
  | zero =>
    intro attempt elapsed h1 h2 h3
    exact absurd h2 (by omega)
  | succ f ih =>
    intro attempt elapsed h1 h2 h3
    obtain ⟨ra, hra⟩ := hfail (attempt + 1)
    simp only [retryLoop]
    rw [if_neg (by omega)]
    by_cases hl : limiterOk (attempt + 1) = true
    · simp only [hl, if_true, hra]
      simp only [Bool.not_true, Bool.false_eq_true, if_false]
      by_cases hm : attempt + 1 > max_retries
      · rw [if_pos hm]
        exact ⟨rfl, h3, by show attempt + 1 ≤ max_retries + 1; omega⟩
      · rw [if_neg hm]
        by_cases hcap :
            elapsed + nextRetryDelay base_delay jitter (attempt + 1) ra > max_total_time
        · rw [if_pos hcap]
          exact ⟨rfl, h3, by show attempt + 1 ≤ max_retries + 1; omega⟩
        · rw [if_neg hcap]
          exact ih (attempt + 1)
            (elapsed + nextRetryDelay base_delay jitter (attempt + 1) ra)
            (by omega) (by omega) (by linarith [not_lt.mp hcap])
    · simp only [Bool.not_eq_true] at hl
      simp only [hl, Bool.false_eq_true, if_false]
      by_cases hm : attempt + 1 > max_retries
      · rw [if_pos hm]
        exact ⟨rfl, h3, by show attempt + 1 ≤ max_retries + 1; omega⟩
      · rw [if_neg hm]
        by_cases hcap : elapsed +
            calculate_backoff_delay (attempt + 1) base_delay (jitter (attempt + 1)) >
            max_total_time
        · rw [if_pos hcap]
          exact ⟨rfl, h3, by show attempt + 1 ≤ max_retries + 1; omega⟩
        · rw [if_neg hcap]
          exact ih (attempt + 1)
            (elapsed + calculate_backoff_delay (attempt + 1) base_delay (jitter (attempt + 1)))
            (by omega) (by omega) (by linarith [not_lt.mp hcap])

/-- C10: (i) at any reachable loop state, when the chosen next delay would
cross `max_total_time`, the iteration raises the time-cap error with the
elapsed time unchanged — it never sleeps past the cap (stated for the
failed-call site and for the local-rate-limit site); (ii) consequently,
against an always-failing retryable oracle the caller aborts — never
retrying indefinitely — within `max_retries + 1` attempts and with total
slept time at most `max_total_time` (hence within the cap plus one delay
increment). -/
theorem c10_time_cap_enforcement (limiterOk : Nat → Bool)
    (oracle : Nat → OracleOutcome) (jitter : Nat → ℚ) (max_retries : Nat)
    (base_delay max_total_time : ℚ) :
    (∀ fuel attempt elapsed retry_after,
      attempt ≤ max_retries →
      limiterOk (attempt + 1) = true →
      oracle (attempt + 1) = .err true retry_after →
      attempt + 1 ≤ max_retries →
      elapsed + nextRetryDelay base_delay jitter (attempt + 1) retry_after >
        max_total_time →
      retryLoop limiterOk oracle jitter max_retries base_delay max_total_time
        (fuel + 1) attempt elapsed = .timeCap elapsed (attempt + 1)) ∧
    (∀ fuel attempt elapsed,
      attempt ≤ max_retries →
      limiterOk (attempt + 1) = false →
      attempt + 1 ≤ max_retries →
      elapsed + calculate_backoff_delay (attempt + 1) base_delay (jitter (attempt + 1)) >
        max_total_time →
      retryLoop limiterOk oracle jitter max_retries base_delay max_total_time
        (fuel + 1) attempt elapsed = .timeCap elapsed (attempt + 1)) ∧
    ((∀ a, ∃ ra, oracle a = .err true ra) → 0 ≤ max_total_time →
      ((rate_limited_llm_call limiterOk oracle jitter max_retries base_delay
          max_total_time).isFailureAbort = true ∧
       (rate_limited_llm_call limiterOk oracle jitter max_retries base_delay
          max_total_time).elapsedOf ≤ max_total_time ∧
       (rate_limited_llm_call limiterOk oracle jitter max_retries base_delay
          max_total_time).attemptsOf ≤ max_retries + 1)) := by
  refine ⟨?_, ?_, ?_⟩
  · intro fuel attempt elapsed retry_after h1 hl hra hm hcap
    simp only [retryLoop]
    rw [if_neg (by omega)]
    simp only [hl, if_true, hra]
    simp only [Bool.not_true, Bool.false_eq_true, if_false]
    rw [if_neg (by omega), if_pos hcap]
  · intro fuel attempt elapsed h1 hl hm hcap
    simp only [retryLoop]
    rw [if_neg (by omega)]
    simp only [hl, Bool.false_eq_true, if_false]
    rw [if_neg (by omega), if_pos hcap]
  · intro hfail hcap
    exact retryLoop_always_fail_abort limiterOk oracle jitter max_retries base_delay
      max_total_time hfail (max_retries + 1) 0 0 (by omega) (by omega) hcap

/-- Witness for C10: four allowed retries, base delay 1, cap 10, a limiter
that always admits and an oracle that always raises a retryable error:
the call aborts with at most 10 slept seconds in at most 4 attempts; and a
loop state at 19/2 elapsed with a next delay of 1 raises the time-cap
error instead of sleeping. -/
theorem c10_time_cap_enforcement_witness :
    ((rate_limited_llm_call (fun _ => true) (fun _ => .err true none) (fun _ => 0)
        3 1 10).isFailureAbort = true ∧
     (rate_limited_llm_call (fun _ => true) (fun _ => .err true none) (fun _ => 0)
        3 1 10).elapsedOf ≤ 10 ∧
     (rate_limited_llm_call (fun _ => true) (fun _ => .err true none) (fun _ => 0)
        3 1 10).attemptsOf ≤ 3 + 1) ∧
    retryLoop (fun _ => true) (fun _ => .err true none) (fun _ => 0) 3 1 10
      (0 + 1) 0 (19 / 2) = .timeCap (19 / 2) (0 + 1) := by
  constructor
  · exact (c10_time_cap_enforcement (fun _ => true) (fun _ => .err true none)
      (fun _ => 0) 3 1 10).2.2 (fun a => ⟨none, rfl⟩) (by norm_num)
  · exact (c10_time_cap_enforcement (fun _ => true) (fun _ => .err true none)
      (fun _ => 0) 3 1 10).1 0 0 (19 / 2) none (by omega) rfl rfl (by omega)
      (by norm_num [nextRetryDelay, calculate_backoff_delay])

/-! ## Graph-operation lemmas -/

/-- `add_node` does not touch the edge list. -/
theorem Graph.edges_addNode (g : Graph) (id : String) (d : NodeData) :
    (g.addNode id d).edges = g.edges := by
  unfold Graph.addNode
  split <;> rfl

/-- `ensureNode` does not touch the edge list. -/
theorem Graph.edges_ensureNode (g : Graph) (id : String) :
    (g.ensureNode id).edges = g.edges := by
  unfold Graph.ensureNode
  split <;> rfl

/-- The node list after `add_edge` is the node list after ensuring both
endpoints. -/
theorem Graph.nodes_addEdge (g : Graph) (u v : String) (d : EdgeData) :
    (g.addEdge u v d).nodes = ((g.ensureNode u).ensureNode v).nodes := by
  simp only [Graph.addEdge]
  split <;> rfl

/-- An already-present node id makes `ensureNode` the identity. -/
theorem Graph.ensureNode_of_hasNode (g : Graph) (id : String)
    (h : g.hasNode id = true) : g.ensureNode id = g := by
  unfold Graph.ensureNode
  rw [if_pos h]

/-- After `add_node id d` the id is present. -/
theorem Graph.hasNode_addNode_self (g : Graph) (id : String) (d : NodeData) :
    (g.addNode id d).hasNode id = true := by
  unfold Graph.addNode
  split
  · next h =>
    simp only [Graph.hasNode, List.any_eq_true, decide_eq_true_eq] at h ⊢
    obtain ⟨x, hx, hx1⟩ := h
    exact ⟨(id, d), List.mem_map.mpr ⟨x, hx, by rw [if_pos hx1]⟩, rfl⟩
  · simp [Graph.hasNode]

/-- Node presence survives `add_node`. -/
theorem Graph.hasNode_addNode_mono (g : Graph) (id x : String) (d : NodeData)
    (h : g.hasNode x = true) : (g.addNode id d).hasNode x = true := by
  unfold Graph.addNode
  split
  · simp only [Graph.hasNode, List.any_eq_true, decide_eq_true_eq] at h ⊢
    obtain ⟨y, hy, hy1⟩ := h
    by_cases hc : y.1 = id
    · refine ⟨(id, d), List.mem_map.mpr ⟨y, hy, ?_⟩, ?_⟩
      · rw [if_pos hc]
      · rw [← hy1, hc]
    · exact ⟨y, List.mem_map.mpr ⟨y, hy, by rw [if_neg hc]⟩, hy1⟩
  · simp only [Graph.hasNode, List.any_append, Bool.or_eq_true]
    exact Or.inl h

/-- Node presence survives `ensureNode`. -/
theorem Graph.hasNode_ensureNode_mono (g : Graph) (id x : String)
    (h : g.hasNode x = true) : (g.ensureNode id).hasNode x = true := by
  unfold Graph.ensureNode
  split
  · exact h
  · simp only [Graph.hasNode, List.any_append, Bool.or_eq_true]
    exact Or.inl h

/-- Node presence survives `add_edge`. -/
theorem Graph.hasNode_addEdge_mono (g : Graph) (u v x : String) (d : EdgeData)
    (h : g.hasNode x = true) : (g.addEdge u v d).hasNode x = true := by
  have hn := Graph.nodes_addEdge g u v d
  unfold Graph.hasNode
  rw [hn]
  exact Graph.hasNode_ensureNode_mono _ v x (Graph.hasNode_ensureNode_mono g u x h)

/-- Every node of `add_node id d` is an old node or `(id, d)`. -/
theorem Graph.mem_nodes_addNode (g : Graph) (id : String) (d : NodeData)
    (p : String × NodeData) (h : p ∈ (g.addNode id d).nodes) :
    p ∈ g.nodes ∨ p = (id, d) := by
  unfold Graph.addNode at h
  split at h
  · simp only at h
    obtain ⟨y, hy, hy1⟩ := List.mem_map.mp h
    by_cases hc : y.1 = id
    · rw [if_pos hc] at hy1
      exact Or.inr hy1.symm
    · rw [if_neg hc] at hy1
      exact Or.inl (hy1 ▸ hy)
  · simp only at h
    rcases List.mem_append.mp h with h' | h'
    · exact Or.inl h'
    · exact Or.inr (List.mem_singleton.mp h')

/-- Every node of `ensureNode` is an old node or the fresh empty node. -/
theorem Graph.mem_nodes_ensureNode (g : Graph) (id : String)
    (p : String × NodeData) (h : p ∈ (g.ensureNode id).nodes) :
    p ∈ g.nodes ∨ p = (id, emptyNodeData) := by
  unfold Graph.ensureNode at h
  split at h
  · exact Or.inl h
  · rcases List.mem_append.mp h with h' | h'
    · exact Or.inl h'
    · exact Or.inr (List.mem_singleton.mp h')

/-- When both endpoints are present, `add_edge` leaves the node list
unchanged. -/
theorem Graph.nodes_addEdge_of_hasNode (g : Graph) (u v : String) (d : EdgeData)
    (hu : g.hasNode u = true) (hv : g.hasNode v = true) :
    (g.addEdge u v d).nodes = g.nodes := by
  rw [Graph.nodes_addEdge, Graph.ensureNode_of_hasNode g u hu,
    Graph.ensureNode_of_hasNode g v hv]

/-- Every edge of `add_edge u v d` is an old edge or `(u, v, d)`. -/
theorem Graph.mem_edges_addEdge (g : Graph) (u v : String) (d : EdgeData)
    (e : String × String × EdgeData) (h : e ∈ (g.addEdge u v d).edges) :
    e ∈ g.edges ∨ e = (u, v, d) := by
  simp only [Graph.addEdge] at h
  split at h
  · obtain ⟨y, hy, hy1⟩ := List.mem_map.mp h
    rw [Graph.edges_ensureNode, Graph.edges_ensureNode] at hy
    by_cases hc : y.1 = u ∧ y.2.1 = v
    · rw [if_pos hc] at hy1
      exact Or.inr hy1.symm
    · rw [if_neg hc] at hy1
      exact Or.inl (hy1 ▸ hy)
  · rcases List.mem_append.mp h with h' | h'
    · rw [Graph.edges_ensureNode, Graph.edges_ensureNode] at h'
      exact Or.inl h'
    · exact Or.inr (List.mem_singleton.mp h')

/-- The upserted edge is present after `add_edge`. -/
theorem Graph.mem_addEdge_self (g : Graph) (u v : String) (d : EdgeData) :
    (u, v, d) ∈ (g.addEdge u v d).edges := by
  simp only [Graph.addEdge]
  split
  · next h =>
    simp only [List.any_eq_true, decide_eq_true_eq] at h
    obtain ⟨y, hy, hy1⟩ := h
    exact List.mem_map.mpr ⟨y, hy, by rw [if_pos hy1]⟩
  · exact List.mem_append.mpr (Or.inr (List.mem_singleton.mpr rfl))

/-- `add_edge u v d` adds or rewrites no edge with a different
source-target pair. -/
theorem Graph.mem_edges_addEdge_of_keyNe (g : Graph) (u v p q : String)
    (d d' : EdgeData) (hne : ¬(p = u ∧ q = v)) :
    (p, q, d') ∈ (g.addEdge u v d).edges ↔ (p, q, d') ∈ g.edges := by
  simp only [Graph.addEdge]
  constructor
  · intro h
    split at h
    · obtain ⟨y, hy, hy1⟩ := List.mem_map.mp h
      rw [Graph.edges_ensureNode, Graph.edges_ensureNode] at hy
      by_cases hc : y.1 = u ∧ y.2.1 = v
      · rw [if_pos hc] at hy1
        exact absurd ⟨congrArg Prod.fst hy1.symm, congrArg (fun z => z.2.1) hy1.symm⟩ hne
      · rw [if_neg hc] at hy1
        exact hy1 ▸ hy
    · rcases List.mem_append.mp h with h' | h'
      · rw [Graph.edges_ensureNode, Graph.edges_ensureNode] at h'
        exact h'
      · exact absurd ⟨congrArg Prod.fst (List.mem_singleton.mp h'),
          congrArg (fun z => z.2.1) (List.mem_singleton.mp h')⟩ hne
  · intro h
    split
    · refine List.mem_map.mpr ⟨(p, q, d'), ?_, ?_⟩
      · rw [Graph.edges_ensureNode, Graph.edges_ensureNode]
        exact h
      · rw [if_neg (fun hc => hne ⟨hc.1, hc.2⟩)]
    · refine List.mem_append.mpr (Or.inl ?_)
      rw [Graph.edges_ensureNode, Graph.edges_ensureNode]
      exact h

/-- Looking up the id just written by `add_node` returns the written
record (association-list search over the updated list). -/
theorem find?_map_update (l : List (String × NodeData)) (id : String) (d : NodeData)
    (h : l.any (fun p => p.1 = id) = true) :
    (l.map (fun p => if p.1 = id then (id, d) else p)).find?
      (fun p => p.1 = id) = some (id, d) := by
  induction l with
  | nil => simp at h
  | cons a t ih =>
    by_cases ha : a.1 = id
    · rw [List.map_cons, if_pos ha]
      exact List.find?_cons_of_pos _ (by simp)
    · rw [List.map_cons, if_neg ha, List.find?_cons_of_neg _ (by simp [ha])]
      refine ih ?_
      simp only [List.any_cons, Bool.or_eq_true, decide_eq_true_eq] at h
      rcases h with h | h
      · exact absurd h ha
      · exact h

/-- Appending a fresh id and searching for it finds the appended record. -/
theorem find?_append_fresh (l : List (String × NodeData)) (id : String) (d : NodeData)
    (h : l.any (fun p => p.1 = id) = false) :
    (l ++ [(id, d)]).find? (fun p => p.1 = id) = some (id, d) := by
  induction l with
  | nil => exact List.find?_cons_of_pos _ (by simp)
  | cons a t ih =>
    simp only [List.any_cons, Bool.or_eq_false_iff, decide_eq_false_iff_not] at h
    rw [List.cons_append, List.find?_cons_of_neg _ (by simp [h.1])]
    exact ih (by simpa using h.2)

/-- `getNode` after `add_node id d` at `id` is `d`. -/
theorem Graph.getNode_addNode_self (g : Graph) (id : String) (d : NodeData) :
    (g.addNode id d).getNode id = d := by
  unfold Graph.addNode Graph.getNode
  split
  · next h =>
    rw [find?_map_update g.nodes id d h]
    rfl
  · next h =>
    rw [find?_append_fresh g.nodes id d (Bool.eq_false_iff.mpr h)]
    rfl

/-- Upserting an existing id leaves the node count unchanged. -/
theorem Graph.nodes_length_addNode_of_hasNode (g : Graph) (id : String)
    (d : NodeData) (h : g.hasNode id = true) :
    (g.addNode id d).nodes.length = g.nodes.length := by
  unfold Graph.addNode
  rw [if_pos h]
  exact List.length_map _ _

/-- `getNode` at a present id is unchanged by `ensureNode`. -/
theorem Graph.getNode_ensureNode_of_hasNode (g : Graph) (x id : String)
    (h : g.hasNode id = true) : (g.ensureNode x).getNode id = g.getNode id := by
  unfold Graph.ensureNode
  split
  · rfl
  · unfold Graph.getNode
    rw [List.find?_append]
    simp only [Graph.hasNode, List.any_eq_true, decide_eq_true_eq] at h
    obtain ⟨y, hy, hy1⟩ := h
    have : g.nodes.find? (fun p => p.1 = id) ≠ none := by
      intro hnone
      have := List.find?_eq_none.mp hnone y hy
      simp [hy1] at this
    cases hf : g.nodes.find? (fun p => p.1 = id) with
    | none => exact absurd hf this
    | some w => rfl

/-- `getNode` at a present id is unchanged by `add_edge`. -/
theorem Graph.getNode_addEdge_of_hasNode (g : Graph) (u v id : String)
    (d : EdgeData) (h : g.hasNode id = true) :
    (g.addEdge u v d).getNode id = g.getNode id := by
  have hn := Graph.nodes_addEdge g u v d
  unfold Graph.getNode
  rw [hn]
  have h1 : (g.ensureNode u).hasNode id = true := Graph.hasNode_ensureNode_mono g u id h
  have e2 := Graph.getNode_ensureNode_of_hasNode (g.ensureNode u) v id h1
  have e1 := Graph.getNode_ensureNode_of_hasNode g u id h
  unfold Graph.getNode at e2 e1
  rw [e2, e1]

/-! ## Claim C1 — the zero-hallucination invariant -/

/-- An evidence list is grounded in a run's id set when it is non-empty
and cites at least one id of the set. -/
def evidenceGrounded (ids ev : List String) : Prop :=
  ev ≠ [] ∧ ∃ i ∈ ev, i ∈ ids

/-- Every node and edge of the graph carries grounded evidence. -/
def GraphOk (ids : List String) (g : Graph) : Prop :=
  (∀ p ∈ g.nodes, evidenceGrounded ids p.2.evidence) ∧
  (∀ e ∈ g.edges, evidenceGrounded ids e.2.2.evidence)

/-- A builder state whose graph is evidence-grounded and already contains
the owning project's node. -/
def StOk (ids : List String) (pid : String) (st : BuilderState) : Prop :=
  GraphOk ids st.graph ∧ st.graph.hasNode pid = true

/-- A fact that passes `verify_fact` cites at least one id of a source
email (so its evidence list is non-empty and grounded). -/
theorem verify_fact_grounded (o : Oracle) (c : String) (ev : List String)
    (es : List Email) (h : verify_fact o c ev es = true) :
    evidenceGrounded (sourceIds es) ev := by
  unfold verify_fact at h
  cases hc : citedEmails ev es with
  | nil => rw [hc] at h; simp at h
  | cons x xs =>
    have hx : x ∈ citedEmails ev es := by
      rw [hc]
      exact List.mem_cons_self x xs
    have hfil := List.mem_filter.mp hx
    have hmem : x.message_id ∈ ev := by simpa using hfil.2
    refine ⟨fun hnil => by rw [hnil] at hmem; simp at hmem,
      ⟨x.message_id, hmem, List.mem_map_of_mem _ hfil.1⟩⟩

/-- `add_node` with grounded data preserves `GraphOk`. -/
theorem GraphOk.addNode {ids : List String} {g : Graph} (h : GraphOk ids g)
    (id : String) (d : NodeData) (hd : evidenceGrounded ids d.evidence) :
    GraphOk ids (g.addNode id d) := by
  constructor
  · intro p hp
    rcases Graph.mem_nodes_addNode g id d p hp with h' | h'
    · exact h.1 p h'
    · rw [h']
      exact hd
  · intro e he
    rw [Graph.edges_addNode] at he
    exact h.2 e he

/-- `add_edge` between present nodes with grounded data preserves
`GraphOk`. -/
theorem GraphOk.addEdge {ids : List String} {g : Graph} (h : GraphOk ids g)
    (u v : String) (d : EdgeData) (hu : g.hasNode u = true)
    (hv : g.hasNode v = true) (hd : evidenceGrounded ids d.evidence) :
    GraphOk ids (g.addEdge u v d) := by
  constructor
  · intro p hp
    rw [Graph.nodes_addEdge_of_hasNode g u v d hu hv] at hp
    exact h.1 p hp
  · intro e he
    rcases Graph.mem_edges_addEdge g u v d e he with h' | h'
    · exact h.2 e h'
    · rw [h']
      exact hd

/-- Folding an invariant-preserving step preserves the invariant. -/
theorem foldl_preserve {α β : Type} (Q : β → Prop) (f : β → α → β)
    (h : ∀ s a, Q s → Q (f s a)) : ∀ (l : List α) (s : β), Q s → Q (l.foldl f s) := by
  intro l
  induction l with
  | nil => intro s hs; exact hs
  | cons x t ih => intro s hs; exact ih (f s x) (h s x hs)

/-- `_add_topic` preserves groundedness and project presence. -/
theorem addTopic_stOk (o : Oracle) (es : List Email) (pid : String)
    (t : TopicData) (st : BuilderState) (h : StOk (sourceIds es) pid st) :
    StOk (sourceIds es) pid (addTopic o es pid t st) := by
  unfold addTopic
  split
  · next hv =>
    have hg := verify_fact_grounded _ _ _ _ hv
    refine ⟨GraphOk.addEdge (GraphOk.addNode h.1 _ _ hg) _ _ _
      (Graph.hasNode_addNode_mono _ _ _ _ h.2) (Graph.hasNode_addNode_self _ _ _) hg, ?_⟩
    exact Graph.hasNode_addEdge_mono _ _ _ _ _ (Graph.hasNode_addNode_mono _ _ _ _ h.2)
  · exact h

/-- `_add_challenge` preserves groundedness and project presence. -/
theorem addChallenge_stOk (o : Oracle) (es : List Email) (pid : String)
    (c : ChallengeData) (st : BuilderState) (h : StOk (sourceIds es) pid st) :
    StOk (sourceIds es) pid (addChallenge o es pid c st) := by
  unfold addChallenge
  split
  · next hv =>
    have hg := verify_fact_grounded _ _ _ _ hv
    refine ⟨GraphOk.addEdge (GraphOk.addNode h.1 _ _ hg) _ _ _
      (Graph.hasNode_addNode_mono _ _ _ _ h.2) (Graph.hasNode_addNode_self _ _ _) hg, ?_⟩
    exact Graph.hasNode_addEdge_mono _ _ _ _ _ (Graph.hasNode_addNode_mono _ _ _ _ h.2)
  · exact h

/-- `_add_resolution` preserves groundedness and project presence, in both
the `RESOLVED_BY` and the `HAS_RESOLUTION` fallback branch. -/
theorem addResolution_stOk (o : Oracle) (es : List Email) (pid : String)
    (r : ResolutionData) (st : BuilderState) (h : StOk (sourceIds es) pid st) :
    StOk (sourceIds es) pid (addResolution o es pid r st) := by
  simp only [addResolution]
  split
  · next hv =>
    have hg := verify_fact_grounded _ _ _ _ hv
    split
    · next hcid =>
      refine ⟨GraphOk.addEdge (GraphOk.addNode h.1 _ _ hg) _ _ _ hcid
        (Graph.hasNode_addNode_self _ _ _) hg, ?_⟩
      exact Graph.hasNode_addEdge_mono _ _ _ _ _ (Graph.hasNode_addNode_mono _ _ _ _ h.2)
    · refine ⟨GraphOk.addEdge (GraphOk.addNode h.1 _ _ hg) _ _ _
        (Graph.hasNode_addNode_mono _ _ _ _ h.2) (Graph.hasNode_addNode_self _ _ _) hg, ?_⟩
      exact Graph.hasNode_addEdge_mono _ _ _ _ _ (Graph.hasNode_addNode_mono _ _ _ _ h.2)
  · exact h

/-- `verify_and_add_project` preserves graph groundedness. -/
theorem verify_and_add_project_graphOk (o : Oracle) (p : ProjectData)
    (es : List Email) (st : BuilderState) (h : GraphOk (sourceIds es) st.graph) :
    GraphOk (sourceIds es) (verify_and_add_project o p es st).2.graph := by
  simp only [verify_and_add_project]
  split
  · next hv =>
    have hg := verify_fact_grounded _ _ _ _ hv
    exact (foldl_preserve (StOk (sourceIds es) p.project_id)
      (fun s r => addResolution o es p.project_id r s)
      (fun s r hs => addResolution_stOk o es p.project_id r s hs) p.resolutions _
      (foldl_preserve (StOk (sourceIds es) p.project_id)
        (fun s c => addChallenge o es p.project_id c s)
        (fun s c hs => addChallenge_stOk o es p.project_id c s hs) p.challenges _
        (foldl_preserve (StOk (sourceIds es) p.project_id)
          (fun s t => addTopic o es p.project_id t s)
          (fun s t hs => addTopic_stOk o es p.project_id t s hs) p.topics _
          ⟨GraphOk.addNode h _ _ hg, Graph.hasNode_addNode_self _ _ _⟩))).1
  · exact h

/-- C1 (amended): every node and every edge of a graph produced by a
`GraphBuilder` run carries a **non-empty** evidence list **at least one**
of whose ids is a source-email message id. (The stored list is the cited
list as-is; ids outside the index can ride along — see the
counterexample — so "every id in evidence exists in the index" does not
hold.) -/
theorem c1_zero_hallucination_invariant (o : Oracle) (es : List Email)
    (projects : List ProjectData) :
    (∀ p ∈ (agent_3_verifier_run o es projects).graph.nodes,
      evidenceGrounded (sourceIds es) p.2.evidence) ∧
    (∀ e ∈ (agent_3_verifier_run o es projects).graph.edges,
      evidenceGrounded (sourceIds es) e.2.2.evidence) := by
  refine foldl_preserve (fun st => GraphOk (sourceIds es) st.graph)
    (fun st p => (verify_and_add_project o p es st).2)
    (fun st p hst => verify_and_add_project_graphOk o p es st hst) projects
    BuilderState.init ⟨?_, ?_⟩
  · intro p hp
    simp [BuilderState.init, Graph.empty] at hp
  · intro e he
    simp [BuilderState.init, Graph.empty] at he

/-- An oracle that answers "supported" to every prompt. -/
def oracleYes : Oracle := fun _ => .ok true

/-- The one-email corpus of the C1 counterexample run. -/
def c1Emails : List Email :=
  [{ message_id := "m1", subject := "s", body_clean := "b" }]

/-- A project citing one real id and one id absent from the corpus. -/
def c1Project : ProjectData :=
  { project_id := "p1", project_name := "Alpha", project_type := "Other",
    timeline := "", scope_description := "", phase := "Unknown",
    phase_reasoning := "", evidence := ["m1", "ghost"],
    topics := [], challenges := [], resolutions := [] }

/-- C1 counterexample: the committed Project node stores the id `"ghost"`
in its evidence even though `"ghost"` is not a source message id — the
claim's "every id in the evidence exists in the EvidenceIndex" fails. -/
theorem c1_zero_hallucination_counterexample :
    (agent_3_verifier_run oracleYes c1Emails [c1Project]).graph.hasNode "p1" = true ∧
    "ghost" ∈
      ((agent_3_verifier_run oracleYes c1Emails [c1Project]).graph.getNode "p1").evidence ∧
    "ghost" ∉ sourceIds c1Emails := by
  refine ⟨by decide, by decide, by decide⟩

/-- The Project node committed by the C1 counterexample run. -/
def c1StoredNode : String × NodeData :=
  ("p1", projectNodeData c1Project)

/-- Witness for C1 on the counterexample run: the stored node's evidence is
non-empty and grounded. -/
theorem c1_zero_hallucination_invariant_witness :
    evidenceGrounded (sourceIds c1Emails) c1StoredNode.2.evidence :=
  (c1_zero_hallucination_invariant oracleYes c1Emails [c1Project]).1 c1StoredNode
    (by decide)

/-! ## Claim C3 — re-inserting a Project fact -/

/-- Inserting a pure Project fact (no attached sub-facts) that passes
verification replaces the builder state's graph by an `add_node` of the
project record. -/
theorem verify_and_add_project_accepted (o : Oracle) (p : ProjectData)
    (es : List Email) (st : BuilderState)
    (hv : verify_fact o ("Project named \x27" ++ p.project_name ++ "\x27")
      p.evidence es = true)
    (ht : p.topics = []) (hc : p.challenges = []) (hr : p.resolutions = []) :
    (verify_and_add_project o p es st).2 =
      { st with graph := st.graph.addNode p.project_id (projectNodeData p) } := by
  simp only [verify_and_add_project, hv, ht, hc, hr, List.foldl_nil, if_true]

/-- C3 (amended): inserting a second Project fact with the same derived
node id leaves the node count unchanged, and leaves the stored node's
evidence equal to the **second** insertion's evidence list — the upsert
overwrites the attributes rather than forming the union (the two coincide
only when both insertions cite the same evidence). Stated for pure
Project facts (no attached topic/challenge/resolution sub-facts). -/
theorem c3_project_upsert_overwrites (o : Oracle) (es : List Email)
    (p q : ProjectData) (st : BuilderState)
    (hid : q.project_id = p.project_id)
    (hpt : p.topics = []) (hpc : p.challenges = []) (hpr : p.resolutions = [])
    (hqt : q.topics = []) (hqc : q.challenges = []) (hqr : q.resolutions = [])
    (hvp : verify_fact o ("Project named \x27" ++ p.project_name ++ "\x27")
      p.evidence es = true)
    (hvq : verify_fact o ("Project named \x27" ++ q.project_name ++ "\x27")
      q.evidence es = true) :
    ((verify_and_add_project o q es (verify_and_add_project o p es st).2).2.graph.nodes.length
      = (verify_and_add_project o p es st).2.graph.nodes.length) ∧
    (((verify_and_add_project o q es
        (verify_and_add_project o p es st).2).2.graph.getNode p.project_id).evidence
      = q.evidence) := by
  rw [verify_and_add_project_accepted o p es st hvp hpt hpc hpr,
    verify_and_add_project_accepted o q es _ hvq hqt hqc hqr, hid]
  constructor
  · exact Graph.nodes_length_addNode_of_hasNode _ _ _
      (Graph.hasNode_addNode_self _ _ _)
  · rw [Graph.getNode_addNode_self]
    rfl

/-- The two-email corpus for the C3 run. -/
def c3Emails : List Email :=
  [{ message_id := "m1", subject := "s1", body_clean := "b1" },
   { message_id := "m2", subject := "s2", body_clean := "b2" }]

/-- First insertion of project `p1`, citing `m1`. -/
def c3ProjA : ProjectData :=
  { project_id := "p1", project_name := "Alpha", project_type := "Other",
    timeline := "", scope_description := "", phase := "Unknown",
    phase_reasoning := "", evidence := ["m1"],
    topics := [], challenges := [], resolutions := [] }

/-- Second insertion of project `p1`, citing `m2`. -/
def c3ProjB : ProjectData :=
  { project_id := "p1", project_name := "Alpha", project_type := "Other",
    timeline := "", scope_description := "", phase := "Unknown",
    phase_reasoning := "", evidence := ["m2"],
    topics := [], challenges := [], resolutions := [] }

/-- Builder state after the first C3 insertion. -/
def c3FirstInsert : BuilderState :=
  (verify_and_add_project oracleYes c3ProjA c3Emails BuilderState.init).2

/-- Builder state after the second C3 insertion. -/
def c3SecondInsert : BuilderState :=
  (verify_and_add_project oracleYes c3ProjB c3Emails c3FirstInsert).2

/-- C3 counterexample: after inserting the same derived id with evidence
`["m1"]` and then `["m2"]`, the stored evidence is `["m2"]` — `"m1"`,
which the claimed union must contain, is gone. (The node count does stay
unchanged.) -/
theorem c3_project_upsert_counterexample :
    c3SecondInsert.graph.nodes.length = c3FirstInsert.graph.nodes.length ∧
    (c3SecondInsert.graph.getNode "p1").evidence = ["m2"] ∧
    "m1" ∈ c3ProjA.evidence ∧
    "m1" ∉ (c3SecondInsert.graph.getNode "p1").evidence := by
  refine ⟨by decide, by decide, by decide, by decide⟩

/-- Witness for the amended C3 on the concrete double insertion. -/
theorem c3_project_upsert_overwrites_witness :
    (c3SecondInsert.graph.nodes.length = c3FirstInsert.graph.nodes.length) ∧
    ((c3SecondInsert.graph.getNode "p1").evidence = c3ProjB.evidence) :=
  c3_project_upsert_overwrites oracleYes c3Emails c3ProjA c3ProjB BuilderState.init
    rfl rfl rfl rfl rfl rfl rfl (by decide) (by decide)

/-! ## Claim C7 — Resolution linking and its fallback -/

/-- A string never equals itself extended by `"_"` and a suffix. -/
theorem ne_append_underscore (s x : String) : s ≠ s ++ "_" ++ x := by
  intro h
  have hlen := congrArg String.length h
  rw [String.length_append, String.length_append] at hlen
  have h1 : ("_" : String).length = 1 := rfl
  omega

/-- C7 (amended): when a verified Resolution fact is inserted, the
Resolution node is committed, and the link chooses its source by
**id lookup after that insertion**: if a node with id
`project_id + "_" + resolves` is then present, a `RESOLVED_BY` edge from
that node (whatever its type — see counterexample) to the Resolution node
is added and no fresh project-to-resolution edge appears; if it is
absent, a `HAS_RESOLUTION` edge from the owning project's id to the
Resolution node is added instead and no fresh challenge-to-resolution
edge appears. Both branches are ordinary returns — no error is raised. -/
theorem c7_resolution_linking (o : Oracle) (es : List Email) (project_id : String)
    (r : ResolutionData) (st : BuilderState)
    (hv : verify_fact o ("Resolution: " ++ r.description) r.evidence es = true) :
    (((st.graph.addNode (project_id ++ "_" ++ r.id) (resolutionNodeData r)).hasNode
        (project_id ++ "_" ++ r.resolves) = true) →
      ((project_id ++ "_" ++ r.resolves, project_id ++ "_" ++ r.id,
          { edge_type := "RESOLVED_BY", evidence := r.evidence }) ∈
        (addResolution o es project_id r st).graph.edges ∧
       (addResolution o es project_id r st).graph.getNode (project_id ++ "_" ++ r.id) =
         resolutionNodeData r ∧
       (∀ d' : EdgeData,
         (project_id, project_id ++ "_" ++ r.id, d') ∈
           (addResolution o es project_id r st).graph.edges →
         (project_id, project_id ++ "_" ++ r.id, d') ∈ st.graph.edges))) ∧
    (((st.graph.addNode (project_id ++ "_" ++ r.id) (resolutionNodeData r)).hasNode
        (project_id ++ "_" ++ r.resolves) = false) →
      ((project_id, project_id ++ "_" ++ r.id,
          { edge_type := "HAS_RESOLUTION", evidence := r.evidence }) ∈
        (addResolution o es project_id r st).graph.edges ∧
       (addResolution o es project_id r st).graph.getNode (project_id ++ "_" ++ r.id) =
         resolutionNodeData r ∧
       (∀ d' : EdgeData,
         (project_id ++ "_" ++ r.resolves, project_id ++ "_" ++ r.id, d') ∈
           (addResolution o es project_id r st).graph.edges →
         (project_id ++ "_" ++ r.resolves, project_id ++ "_" ++ r.id, d') ∈
           st.graph.edges))) := by
  constructor
  · intro hcid
    simp only [addResolution, hv, if_true, hcid]
    refine ⟨Graph.mem_addEdge_self _ _ _ _, ?_, ?_⟩
    · rw [Graph.getNode_addEdge_of_hasNode _ _ _ _ _
        (Graph.hasNode_addNode_self _ _ _), Graph.getNode_addNode_self]
    · intro d' hd'
      rw [Graph.mem_edges_addEdge_of_keyNe _ _ _ _ _ _ _
        (fun hk => ne_append_underscore project_id r.resolves hk.1)] at hd'
      rw [Graph.edges_addNode] at hd'
      exact hd'
  · intro hcid
    simp only [addResolution, hv, if_true, hcid, Bool.false_eq_true, if_false]
    refine ⟨Graph.mem_addEdge_self _ _ _ _, ?_, ?_⟩
    · rw [Graph.getNode_addEdge_of_hasNode _ _ _ _ _
        (Graph.hasNode_addNode_self _ _ _), Graph.getNode_addNode_self]
    · intro d' hd'
      rw [Graph.mem_edges_addEdge_of_keyNe _ _ _ _ _ _ _
        (fun hk => ne_append_underscore project_id r.resolves hk.1.symm)] at hd'
      rw [Graph.edges_addNode] at hd'
      exact hd'

/-- One-email corpus for the C7 runs. -/
def c7Emails : List Email :=
  [{ message_id := "m1", subject := "s", body_clean := "b" }]

/-- A builder state holding only the verified project node `p1`. -/
def c7St0 : BuilderState :=
  { graph :=
      { nodes := [("p1", { emptyNodeData with
          node_type := "Project", name := "Alpha", evidence := ["m1"] })]
        edges := [] }
    rejected_facts := [] }

/-- A resolution whose `resolves` field equals its own id. -/
def c7SelfRes : ResolutionData :=
  { id := "a", resolves := "a", description := "use hosted solution",
    resolved_date := "", methodology := "", evidence := ["m1"] }

/-- C7 counterexample: the graph contains no Challenge node at insertion
time (indeed no node with the referenced id), yet inserting a resolution
whose `resolves` equals its own id produces a `RESOLVED_BY` self-loop on
the Resolution node — not the claimed `HAS_RESOLUTION` edge from the
project — because the id check runs after the Resolution node is added. -/
theorem c7_resolution_linking_counterexample :
    c7St0.graph.hasNode ("p1" ++ "_" ++ c7SelfRes.resolves) = false ∧
    (∀ p ∈ c7St0.graph.nodes, p.2.node_type ≠ "Challenge") ∧
    ("p1_a", "p1_a", { edge_type := "RESOLVED_BY", evidence := ["m1"] }) ∈
      (addResolution oracleYes c7Emails "p1" c7SelfRes c7St0).graph.edges ∧
    ("p1", "p1_a", { edge_type := "HAS_RESOLUTION", evidence := ["m1"] }) ∉
      (addResolution oracleYes c7Emails "p1" c7SelfRes c7St0).graph.edges := by
  refine ⟨by decide, by decide, by decide, by decide⟩

/-- A resolution referencing an absent challenge id distinct from its own
id. -/
def c7FallbackRes : ResolutionData :=
  { id := "b", resolves := "c", description := "use hosted solution",
    resolved_date := "", methodology := "", evidence := ["m1"] }

/-- Witness for C7: the fallback branch links `p1 → p1_b` with
`HAS_RESOLUTION` when no node with id `p1_c` exists. -/
theorem c7_resolution_linking_witness :
    ("p1", "p1_b", { edge_type := "HAS_RESOLUTION", evidence := ["m1"] }) ∈
      (addResolution oracleYes c7Emails "p1" c7FallbackRes c7St0).graph.edges :=
  ((c7_resolution_linking oracleYes c7Emails "p1" c7FallbackRes c7St0
    (by decide)).2 (by decide)).1

end GraphMail
